import Mathlib

/-!
Verification of the bt-kitchen-svc order-ticket service.

The Go sources are shallowly embedded as follows:
  * Go `int` is `Int` (no claim here depends on 64-bit overflow);
  * a Go `[]string` field that may be `nil` is `Option (List String)`
    (`none` is the nil slice, `some []` the non-nil empty slice);
  * a Go string used as a URL path is its character list `List Char`;
  * JSON documents are the inductive `JsonValue`; the behaviour of
    `encoding/json` when decoding into the `Ticket` struct with
    `DisallowUnknownFields` (case-insensitive field-name match, `null`
    leaving the current value in place, type mismatches and unknown
    fields failing) is embedded by `decodeTicketJson`;
  * an `http.ResponseWriter` observed after the handler returns is
    `HttpResponse`: which status was written (if any) and which JSON
    body was encoded (if any);
  * the `KitchenStore` Go interface is a structure of two operations
    over an explicit state type `σ`; mutation is explicit state passing.
-/

set_option autoImplicit false

/-- Ticket status constants from server.go (`iota`: 0, 1, 2). -/
def STATUS_PENDING : Int := 0

/-- Status value 1. -/
def STATUS_ACCEPTED : Int := 1

/-- Status value 2. -/
def STATUS_COMPLETED : Int := 2

/-- The `Ticket` struct of server.go. `Items` is `none` for a nil slice. -/
structure Ticket where
  ID : Int
  Status : Int
  Items : Option (List String)
deriving DecidableEq

/-- The zero value `Ticket{}` of Go: zero ID, zero status, nil items. -/
def zeroTicket : Ticket := { ID := 0, Status := 0, Items := none }

/-- A JSON document (the parse tree of a request or response body). -/
inductive JsonValue where
  | null
  | bool (b : Bool)
  | num (n : Int)
  | str (s : String)
  | arr (elems : List JsonValue)
  | obj (fields : List (String × JsonValue))

/-- ASCII case folding of one character (upper to lower). -/
def charFold (c : Char) : Char :=
  if 65 ≤ c.toNat ∧ c.toNat ≤ 90 then Char.ofNat (c.toNat + 32) else c

/-- Case-insensitive character-list equality, as Go json field matching uses. -/
def charsEqFold : List Char → List Char → Bool
  | [], [] => true
  | a :: cs, b :: ds => (charFold a == charFold b) && charsEqFold cs ds
  | _, _ => false

/-- Case-insensitive string equality on field names. -/
def strEqFold (a b : String) : Bool := charsEqFold a.data b.data

/-- Which `Ticket` struct field a JSON object key refers to. -/
inductive FieldName where
  | fID
  | fStatus
  | fItems
  | fUnknown
deriving DecidableEq

/-- Resolve a JSON object key against the `Ticket` struct fields, in the
case-insensitive way `encoding/json` matches exported field names. -/
def classifyField (name : String) : FieldName :=
  if strEqFold name "ID" then FieldName.fID
  else if strEqFold name "Status" then FieldName.fStatus
  else if strEqFold name "Items" then FieldName.fItems
  else FieldName.fUnknown

/-- Decode a JSON array into a `[]string`: strings decode to themselves,
`null` leaves the zero value `""`, anything else is a type error. -/
def decodeStringList : List JsonValue → Except String (List String)
  | [] => Except.ok []
  | JsonValue.str s :: rest =>
    match decodeStringList rest with
    | Except.ok xs => Except.ok (s :: xs)
    | Except.error e => Except.error e
  | JsonValue.null :: rest =>
    match decodeStringList rest with
    | Except.ok xs => Except.ok ("" :: xs)
    | Except.error e => Except.error e
  | _ :: _ => Except.error "json: cannot unmarshal value into Go value of type string"

/-- Apply one JSON object member to the ticket being decoded.
`null` is a no-op, a type mismatch fails, and — because the decoder of
server.go calls `DisallowUnknownFields` — a key matching no struct field
fails as well. -/
def applyField (t : Ticket) (name : String) (v : JsonValue) : Except String Ticket :=
  match classifyField name, v with
  | FieldName.fID, JsonValue.null => Except.ok t
  | FieldName.fID, JsonValue.num n => Except.ok { t with ID := n }
  | FieldName.fID, _ => Except.error "json: cannot unmarshal value into field Ticket.ID"
  | FieldName.fStatus, JsonValue.null => Except.ok t
  | FieldName.fStatus, JsonValue.num n => Except.ok { t with Status := n }
  | FieldName.fStatus, _ => Except.error "json: cannot unmarshal value into field Ticket.Status"
  | FieldName.fItems, JsonValue.null => Except.ok t
  | FieldName.fItems, JsonValue.arr elems =>
    match decodeStringList elems with
    | Except.ok items => Except.ok { t with Items := some items }
    | Except.error e => Except.error e
  | FieldName.fItems, _ => Except.error "json: cannot unmarshal value into field Ticket.Items"
  | FieldName.fUnknown, _ => Except.error "json: unknown field"

/-- Apply the members of a JSON object to the ticket in order. -/
def applyFields : Ticket → List (String × JsonValue) → Except String Ticket
  | t, [] => Except.ok t
  | t, (n, v) :: rest =>
    match applyField t n v with
    | Except.ok t2 => applyFields t2 rest
    | Except.error e => Except.error e

/-- Decode one JSON document into a `Ticket` starting from the zero value,
with `DisallowUnknownFields` in force (server.go, `getTicketFromRequestBody`).
A top-level `null` leaves the zero value in place, as `encoding/json` does. -/
def decodeTicketJson : JsonValue → Except String Ticket
  | JsonValue.obj fields => applyFields zeroTicket fields
  | JsonValue.null => Except.ok zeroTicket
  | _ => Except.error "json: cannot unmarshal value into Go value of type main.Ticket"

/-- `isTicketValid` of server.go: the nil-ness check `ticket.Items == nil`. -/
def isTicketValid (ticket : Ticket) : Bool :=
  match ticket.Items with
  | none => false
  | some _ => true

/-- `getTicketFromRequestBody` of server.go. The request body is `none`
when it is not well-formed JSON at all, `some j` when it parses to `j`. -/
def getTicketFromRequestBody (body : Option JsonValue) : Except String Ticket :=
  match body with
  | none => Except.error "unable to unmarshal ticket JSON"
  | some j =>
    match decodeTicketJson j with
    | Except.error e => Except.error ("unable to unmarshal ticket JSON, " ++ e)
    | Except.ok ticket =>
      if isTicketValid ticket then Except.ok ticket
      else Except.error "some fields of ticket JSON are empty, cannot persist"

/-- JSON encoding of a `Ticket`, as `json.NewEncoder(w).Encode(ticket)`
produces it: exported field names, a nil slice encoded as `null`. -/
def encodeTicket (t : Ticket) : JsonValue :=
  JsonValue.obj
    [("ID", JsonValue.num t.ID),
     ("Status", JsonValue.num t.Status),
     ("Items",
      match t.Items with
      | none => JsonValue.null
      | some items => JsonValue.arr (items.map JsonValue.str))]

/-- JSON encoding of the `CreateTicketResponse` wire envelope. -/
def encodeCreateTicketResponse (id : Int) : JsonValue :=
  JsonValue.obj [("ID", JsonValue.num id)]

/-- The `KitchenStore` Go interface over an explicit state type `σ`.
`StoreTicket` returns the successor state together with the assigned ID. -/
structure KitchenStore (σ : Type) where
  GetTicketByID : σ → Int → Except String Ticket
  StoreTicket : σ → Ticket → Except String (σ × Int)

/-- `StubKitchenStore` (test file): state is the `tickets` slice;
lookup scans for the first ticket with the requested ID, store overwrites
the ticket's ID with the current slice length, appends, and returns it. -/
def stubStore : KitchenStore (List Ticket) where
  GetTicketByID := fun tickets ticketID =>
    match tickets.find? (fun t => t.ID == ticketID) with
    | some t => Except.ok t
    | none => Except.error "no ticket with ID"
  StoreTicket := fun tickets ticket =>
    Except.ok (tickets ++ [{ ticket with ID := (tickets.length : Int) }],
               (tickets.length : Int))

/-- `InMemoryKitchenStore` (main file): stateless; lookup always succeeds
with the zero ticket, store discards the ticket and always returns 123. -/
def inMemoryStore : KitchenStore Unit where
  GetTicketByID := fun _ _ => Except.ok zeroTicket
  StoreTicket := fun _ _ => Except.ok ((), 123)

/-- The characters of the route prefix string `"/ticket/"`. -/
def ticketRoute : List Char := ['/', 't', 'i', 'c', 'k', 'e', 't', '/']

/-- `strings.TrimPrefix(path, "/ticket/")`: drop the prefix when present,
otherwise return the path unchanged. -/
def trimTicketRoute (path : List Char) : List Char :=
  if ticketRoute.isPrefixOf path then path.drop ticketRoute.length else path

/-- Accumulate decimal digits; any non-digit character fails. -/
def digitsValCore : Nat → List Char → Option Nat
  | acc, [] => some acc
  | acc, c :: cs =>
    if 48 ≤ c.toNat ∧ c.toNat ≤ 57 then digitsValCore (acc * 10 + (c.toNat - 48)) cs
    else none

/-- Value of a non-empty all-digit character list; `none` otherwise. -/
def digitsVal : List Char → Option Nat
  | [] => none
  | c :: cs => digitsValCore 0 (c :: cs)

/-- `strconv.Atoi`: an optional sign followed by at least one decimal digit. -/
def Atoi : List Char → Option Int
  | '+' :: cs => (digitsVal cs).map (fun n => (n : Int))
  | '-' :: cs => (digitsVal cs).map (fun n => -(n : Int))
  | cs => (digitsVal cs).map (fun n => (n : Int))

/-- What the handler observes of an incoming request: the HTTP method,
the URL path, and the body parsed as JSON (`none` for malformed JSON). -/
structure HttpRequest where
  method : String
  path : List Char
  body : Option JsonValue

/-- What the handler wrote to the `ResponseWriter`: the status code passed
to `WriteHeader` (or `none` when none was written) and the JSON body
encoded into the writer (or `none`). -/
structure HttpResponse where
  status : Option Nat
  body : Option JsonValue

/-- `KitchenServer.getTicket` of server.go: trim the route prefix, parse
the ID (400 on failure), look the ticket up (404 on failure), else 200
with the ticket encoded as JSON. Reading the store leaves it unchanged. -/
def KitchenServer.getTicket {σ : Type} (ks : KitchenStore σ) (s : σ) (path : List Char) :
    HttpResponse :=
  match Atoi (trimTicketRoute path) with
  | none => { status := some 400, body := none }
  | some ticketID =>
    match ks.GetTicketByID s ticketID with
    | Except.error _ => { status := some 404, body := none }
    | Except.ok ticket => { status := some 200, body := some (encodeTicket ticket) }

/-- `KitchenServer.createTicket` of server.go: decode and validate the body
(400 on failure), force the status to `STATUS_PENDING`, store the ticket
(400 on failure), else 202 with the `CreateTicketResponse` body. -/
def KitchenServer.createTicket {σ : Type} (ks : KitchenStore σ) (s : σ)
    (body : Option JsonValue) : σ × HttpResponse :=
  match getTicketFromRequestBody body with
  | Except.error _ => (s, { status := some 400, body := none })
  | Except.ok ticket =>
    match ks.StoreTicket s { ticket with Status := STATUS_PENDING } with
    | Except.error _ => (s, { status := some 400, body := none })
    | Except.ok (s2, id) =>
      (s2, { status := some 202, body := some (encodeCreateTicketResponse id) })

/-- `KitchenServer.ServeHTTP` of server.go: dispatch on the HTTP method;
a method other than GET and POST falls through the `switch` and writes
nothing at all. -/
def KitchenServer.ServeHTTP {σ : Type} (ks : KitchenStore σ) (s : σ) (r : HttpRequest) :
    σ × HttpResponse :=
  if r.method == "GET" then (s, KitchenServer.getTicket ks s r.path)
  else if r.method == "POST" then KitchenServer.createTicket ks s r.body
  else (s, { status := none, body := none })

/-! ## Shared lemmas -/

/-- When decode or validation fails, `createTicket` answers 400 with no body
and returns the store state unchanged, whatever the store is. -/
theorem createTicket_err {σ : Type} (ks : KitchenStore σ) (s : σ) (body : Option JsonValue)
    (e : String) (h : getTicketFromRequestBody body = Except.error e) :
    KitchenServer.createTicket ks s body = (s, { status := some 400, body := none }) := by
  unfold KitchenServer.createTicket
  rw [h]

/-- A key resolving to no Ticket field makes `applyField` fail. -/
theorem applyField_unknown (t : Ticket) (n : String) (v : JsonValue)
    (h : classifyField n = FieldName.fUnknown) :
    applyField t n v = Except.error "json: unknown field" := by
  cases v <;> simp [applyField, h]

/-- Whether some member of a JSON object has a key outside the Ticket schema. -/
def hasUnknownField : List (String × JsonValue) → Bool
  | [] => false
  | (n, _) :: rest =>
    decide (classifyField n = FieldName.fUnknown) || hasUnknownField rest

/-- An object with a key outside the Ticket schema never decodes. -/
theorem applyFields_unknown : ∀ fs : List (String × JsonValue),
    hasUnknownField fs = true → ∀ t : Ticket, ∃ e, applyFields t fs = Except.error e := by
  intro fs
  induction fs with
  | nil => intro h; simp [hasUnknownField] at h
  | cons p rest ih =>
    intro h t
    obtain ⟨n, v⟩ := p
    simp only [hasUnknownField, Bool.or_eq_true, decide_eq_true_eq] at h
    rcases h with hcl | hrest
    · exact ⟨"json: unknown field", by simp [applyFields, applyField_unknown t n v hcl]⟩
    · cases happ : applyField t n v with
      | error e => exact ⟨e, by simp [applyFields, happ]⟩
      | ok t2 =>
        obtain ⟨e, he⟩ := ih hrest t2
        exact ⟨e, by simp [applyFields, happ, he]⟩

/-! ## Claims -/

/-- Claim C1: for every POST body that decodes and validates successfully,
the ticket persisted by the stub store has `Status = STATUS_PENDING`
regardless of the status carried by the body, and its ID (the length of the
previous tickets slice) is exactly the ID in the 202 response body. -/
theorem createTicket_persists_pending (s : List Ticket) (body : Option JsonValue) (t : Ticket)
    (h : getTicketFromRequestBody body = Except.ok t) :
    KitchenServer.createTicket stubStore s body
      = (s ++ [{ ID := (s.length : Int), Status := STATUS_PENDING, Items := t.Items }],
         { status := some 202, body := some (encodeCreateTicketResponse (s.length : Int)) }) := by
  unfold KitchenServer.createTicket
  rw [h]
  rfl

/-- Witness for C1: a concrete body carrying status ACCEPTED is persisted
with status PENDING and ID 0, which is also the ID in the response body. -/
theorem createTicket_persists_pending_witness :
    KitchenServer.createTicket stubStore []
        (some (JsonValue.obj
          [("Status", JsonValue.num 2), ("Items", JsonValue.arr [JsonValue.str "pizza"])]))
      = ([{ ID := 0, Status := STATUS_PENDING, Items := some ["pizza"] }],
         { status := some 202, body := some (encodeCreateTicketResponse 0) }) :=
  createTicket_persists_pending [] _ { ID := 0, Status := 2, Items := some ["pizza"] } rfl

/-- Claim C7: decoding is strict — a POST body with any field outside the
Ticket schema (ID, Status, Items) is answered 400 with no body, whatever
the store is and whatever else the body contains. -/
theorem createTicket_rejects_unknown_fields {σ : Type} (ks : KitchenStore σ) (s : σ)
    (fs : List (String × JsonValue)) (h : hasUnknownField fs = true) :
    KitchenServer.createTicket ks s (some (JsonValue.obj fs))
      = (s, { status := some 400, body := none }) := by
  obtain ⟨e, he⟩ := applyFields_unknown fs h zeroTicket
  apply createTicket_err ks s _ ("unable to unmarshal ticket JSON, " ++ e)
  simp [getTicketFromRequestBody, decodeTicketJson, he]

/-- Witness for C7: the unknown-field body used by the repository's own test
(`{"text": ...}`) is rejected with 400. -/
theorem createTicket_rejects_unknown_fields_witness :
    KitchenServer.createTicket stubStore []
        (some (JsonValue.obj [("text", JsonValue.str "this is an invalid ticket JSON")]))
      = ([], { status := some 400, body := none }) :=
  createTicket_rejects_unknown_fields stubStore [] _ rfl

/-- Claim C9: a request whose method is neither GET nor POST writes nothing:
no status code, no body, and the store state is returned untouched — the
result does not depend on the store at all. -/
theorem serveHTTP_other_method_writes_nothing {σ : Type} (ks : KitchenStore σ) (s : σ)
    (r : HttpRequest) (h1 : r.method ≠ "GET") (h2 : r.method ≠ "POST") :
    KitchenServer.ServeHTTP ks s r = (s, { status := none, body := none }) := by
  unfold KitchenServer.ServeHTTP
  rw [if_neg (by simpa using h1), if_neg (by simpa using h2)]

/-- Witness for C9: a DELETE request produces no response and no state change. -/
theorem serveHTTP_other_method_writes_nothing_witness :
    KitchenServer.ServeHTTP inMemoryStore ()
        { method := "DELETE", path := ticketRoute ++ ['1'], body := none }
      = ((), { status := none, body := none }) :=
  serveHTTP_other_method_writes_nothing inMemoryStore () _ (by decide) (by decide)

/-- Claim C10: a POST whose body fails JSON decoding or Items validation is
answered 400 with no body and the store state after the request equals the
state before it, whatever the store is — the store operation is never run. -/
theorem serveHTTP_post_error_is_atomic {σ : Type} (ks : KitchenStore σ) (s : σ)
    (r : HttpRequest) (e : String) (hm : r.method = "POST")
    (h : getTicketFromRequestBody r.body = Except.error e) :
    KitchenServer.ServeHTTP ks s r = (s, { status := some 400, body := none }) := by
  unfold KitchenServer.ServeHTTP
  rw [hm, if_neg (by decide), if_pos (by decide)]
  exact createTicket_err ks s r.body e h

/-- Witness for C10: a POST with a malformed body leaves the store unchanged
and answers 400. -/
theorem serveHTTP_post_error_is_atomic_witness :
    KitchenServer.ServeHTTP stubStore
        [{ ID := 0, Status := 0, Items := some ["burger"] }]
        { method := "POST", path := ticketRoute, body := none }
      = ([{ ID := 0, Status := 0, Items := some ["burger"] }],
         { status := some 400, body := none }) :=
  serveHTTP_post_error_is_atomic stubStore _ _ "unable to unmarshal ticket JSON" rfl rfl

/-- Trimming the route prefix from a path that starts with it leaves the
trailing segment. -/
theorem trimTicketRoute_append (cs : List Char) :
    trimTicketRoute (ticketRoute ++ cs) = cs := by
  have hp : ticketRoute.isPrefixOf (ticketRoute ++ cs) = true := by
    simp [ticketRoute, List.isPrefixOf]
  simp [trimTicketRoute, hp, ticketRoute]

/-- Decoding an array of JSON strings yields exactly those strings. -/
theorem decodeStringList_map (xs : List String) :
    decodeStringList (xs.map JsonValue.str) = Except.ok xs := by
  induction xs with
  | nil => rfl
  | cons x rest ih => simp [decodeStringList, ih]

/-- The JSON object keys produced by the encoder resolve to their fields. -/
theorem classifyField_ID : classifyField "ID" = FieldName.fID := rfl

/-- Key `Status` resolves to the Status field. -/
theorem classifyField_Status : classifyField "Status" = FieldName.fStatus := rfl

/-- Key `Items` resolves to the Items field. -/
theorem classifyField_Items : classifyField "Items" = FieldName.fItems := rfl

/-- The encode/decode round trip is the identity on tickets: decoding the
JSON the GET path emits restores the ticket field for field. -/
theorem decode_encodeTicket (t : Ticket) : decodeTicketJson (encodeTicket t) = Except.ok t := by
  obtain ⟨tid, tstatus, titems⟩ := t
  cases titems with
  | none => rfl
  | some xs =>
    simp [encodeTicket, decodeTicketJson, applyFields, applyField, zeroTicket,
      classifyField_ID, classifyField_Status, classifyField_Items, decodeStringList_map]

/-- Claim C3: for a ticket held by the stub store, a GET whose trailing path
segment parses to its ID answers 200 with the ticket encoded as JSON, the
store is unchanged, and decoding that body restores the stored ticket
exactly (same ID, status, and items in the same order). -/
theorem getTicket_roundtrip (tickets : List Ticket) (cs : List Char) (ticketID : Int)
    (t : Ticket) (hid : Atoi cs = some ticketID)
    (hfound : stubStore.GetTicketByID tickets ticketID = Except.ok t) :
    KitchenServer.ServeHTTP stubStore tickets
        { method := "GET", path := ticketRoute ++ cs, body := none }
      = (tickets, { status := some 200, body := some (encodeTicket t) })
    ∧ decodeTicketJson (encodeTicket t) = Except.ok t := by
  constructor
  · have hstep : KitchenServer.ServeHTTP stubStore tickets
        { method := "GET", path := ticketRoute ++ cs, body := none }
        = (tickets, KitchenServer.getTicket stubStore tickets (ticketRoute ++ cs)) := rfl
    rw [hstep]
    simp [KitchenServer.getTicket, trimTicketRoute_append, hid, hfound]
  · exact decode_encodeTicket t

/-- Witness for C3: fetching the seeded ticket with ID 1 returns 200 and a
body that decodes back to it. -/
theorem getTicket_roundtrip_witness :
    KitchenServer.ServeHTTP stubStore
        [{ ID := 1, Status := STATUS_ACCEPTED, Items := some ["burger", "fries"] }]
        { method := "GET", path := ticketRoute ++ ['1'], body := none }
      = ([{ ID := 1, Status := STATUS_ACCEPTED, Items := some ["burger", "fries"] }],
         { status := some 200,
           body := some (encodeTicket
             { ID := 1, Status := STATUS_ACCEPTED, Items := some ["burger", "fries"] }) })
    ∧ decodeTicketJson (encodeTicket
        { ID := 1, Status := STATUS_ACCEPTED, Items := some ["burger", "fries"] })
      = Except.ok { ID := 1, Status := STATUS_ACCEPTED, Items := some ["burger", "fries"] } :=
  getTicket_roundtrip _ ['1'] 1 _ rfl rfl

/-- The stub store honours the fetch contract: when no stored ticket has the
requested ID, `GetTicketByID` fails and the handler answers 404, no body. -/
theorem getTicket_absent_404 (tickets : List Ticket) (cs : List Char) (ticketID : Int)
    (hid : Atoi cs = some ticketID)
    (habs : tickets.find? (fun t => t.ID == ticketID) = none) :
    KitchenServer.ServeHTTP stubStore tickets
        { method := "GET", path := ticketRoute ++ cs, body := none }
      = (tickets, { status := some 404, body := none }) := by
  have hstep : KitchenServer.ServeHTTP stubStore tickets
      { method := "GET", path := ticketRoute ++ cs, body := none }
      = (tickets, KitchenServer.getTicket stubStore tickets (ticketRoute ++ cs)) := rfl
  rw [hstep]
  simp [KitchenServer.getTicket, trimTicketRoute_append, hid, stubStore, habs]

/-- Claim C4 (code bug): `InMemoryKitchenStore.GetTicketByID` of the main
file never fails, so with that store a GET for an ID that no stored ticket
has (here 5, against a store holding nothing) is answered 200 with the JSON
of the zero ticket instead of the 404 the claim and the storage contract
require. The stub store does honour the contract: see `getTicket_absent_404`. -/
theorem inMemory_get_absent_returns_200 :
    KitchenServer.ServeHTTP inMemoryStore ()
        { method := "GET", path := ticketRoute ++ ['5'], body := none }
      = ((), { status := some 200, body := some (encodeTicket zeroTicket) })
    ∧ some (200 : Nat) ≠ some 404 :=
  ⟨rfl, by decide⟩

/-- Is a JSON value `null`? -/
def isNullV : JsonValue → Bool
  | JsonValue.null => true
  | _ => false

/-- Every member of this object keyed (case-insensitively) `Items` is null:
the object supplies no Items value, it is absent or null. -/
def noRealItems : List (String × JsonValue) → Bool
  | [] => true
  | (n, v) :: rest =>
    (match classifyField n with
     | FieldName.fItems => isNullV v
     | _ => true) && noRealItems rest

/-- A member that is not a non-null Items member leaves the Items field of
the ticket being decoded untouched. -/
theorem applyField_items_of_ok (t tmid : Ticket) (n : String) (v : JsonValue)
    (hok : applyField t n v = Except.ok tmid)
    (hn : (match classifyField n with
           | FieldName.fItems => isNullV v
           | _ => true) = true) :
    tmid.Items = t.Items := by
  unfold applyField at hok
  cases hc : classifyField n <;> rw [hc] at hok hn
  case fID => cases v <;> (simp_all; try rw [← hok])
  case fStatus => cases v <;> (simp_all; try rw [← hok])
  case fItems => cases v <;> (simp [isNullV] at hn; try simp_all)
  case fUnknown => simp_all

/-- An object whose Items members are all null decodes (when it decodes at
all) to a ticket whose Items field is the one it started from. -/
theorem applyFields_no_items : ∀ fs : List (String × JsonValue), noRealItems fs = true →
    ∀ t t2 : Ticket, applyFields t fs = Except.ok t2 → t2.Items = t.Items := by
  intro fs
  induction fs with
  | nil =>
    intro h t t2 ht
    simp only [applyFields, Except.ok.injEq] at ht
    rw [← ht]
  | cons p rest ih =>
    intro h t t2 ht
    obtain ⟨n, v⟩ := p
    simp only [noRealItems, Bool.and_eq_true] at h
    obtain ⟨hn, hrest⟩ := h
    rw [applyFields] at ht
    cases happ : applyField t n v with
    | error e => rw [happ] at ht; simp at ht
    | ok tmid =>
      rw [happ] at ht
      rw [ih hrest tmid t2 ht]
      exact applyField_items_of_ok t tmid n v happ hn

/-- Claim C6: an object body whose Items members are all null (Items absent
or null) is rejected 400 with no body and no state change, for any store;
validation accepts exactly the tickets whose Items slice is non-nil — it
checks absence, never length; and a body that decodes with Items present as
the empty sequence is accepted 202 by the stub store. -/
theorem createTicket_items_absence_validation {σ : Type} (ks : KitchenStore σ) (s : σ)
    (fs : List (String × JsonValue)) (h : noRealItems fs = true) :
    KitchenServer.createTicket ks s (some (JsonValue.obj fs))
        = (s, { status := some 400, body := none })
    ∧ (∀ t : Ticket, isTicketValid t = true ↔ t.Items ≠ none)
    ∧ (∀ (s2 : List Ticket) (j : JsonValue) (t : Ticket),
        decodeTicketJson j = Except.ok t → t.Items = some [] →
        (KitchenServer.createTicket stubStore s2 (some j)).2
          = { status := some 202,
              body := some (encodeCreateTicketResponse (s2.length : Int)) }) := by
  refine ⟨?_, ?_, ?_⟩
  · cases hd : applyFields zeroTicket fs with
    | error e =>
      exact createTicket_err ks s _ ("unable to unmarshal ticket JSON, " ++ e)
        (by simp [getTicketFromRequestBody, decodeTicketJson, hd])
    | ok t =>
      have hit : t.Items = none := by
        rw [applyFields_no_items fs h zeroTicket t hd]; rfl
      apply createTicket_err ks s _ "some fields of ticket JSON are empty, cannot persist"
      simp [getTicketFromRequestBody, decodeTicketJson, hd, isTicketValid, hit]
  · intro t
    cases ht : t.Items <;> simp [isTicketValid, ht]
  · intro s2 j t hdec hit
    have hv : getTicketFromRequestBody (some j) = Except.ok t := by
      simp [getTicketFromRequestBody, hdec, isTicketValid, hit]
    unfold KitchenServer.createTicket
    rw [hv]
    rfl

/-- Witness for C6: a body carrying a status but a null Items member is
rejected 400 with no body and the store is untouched. -/
theorem createTicket_items_absence_validation_witness :
    KitchenServer.createTicket stubStore []
        (some (JsonValue.obj [("Status", JsonValue.num 1), ("Items", JsonValue.null)]))
      = ([], { status := some 400, body := none }) :=
  (createTicket_items_absence_validation stubStore []
    [("Status", JsonValue.num 1), ("Items", JsonValue.null)] rfl).1

/-- Counterexample to C2 as stated: this body is valid JSON, carries a
non-null Items sequence, and has no field outside the Ticket schema, yet the
handler answers 400, not 202, because the boolean in its ID member makes the
strict decode fail before validation. -/
theorem createTicket_c2_counterexample :
    (KitchenServer.createTicket stubStore []
        (some (JsonValue.obj [("ID", JsonValue.bool true), ("Items", JsonValue.arr [])]))).2
      = { status := some 400, body := none }
    ∧ (KitchenServer.createTicket stubStore []
        (some (JsonValue.obj [("ID", JsonValue.bool true), ("Items", JsonValue.arr [])]))).2.status
      ≠ some 202 :=
  ⟨rfl, by decide⟩

/-- Claim C2 as amended: for every POST body that strictly decodes into a
ticket with non-null Items — valid JSON object, no unknown fields, and
well-typed ID/Status/Items members — and for which the store's StoreTicket
succeeds with assigned ID `n`, the handler answers 202 Accepted with the
JSON body carrying exactly `n`. -/
theorem createTicket_returns_store_id {σ : Type} (ks : KitchenStore σ) (s s2 : σ) (n : Int)
    (j : JsonValue) (t : Ticket) (hdec : decodeTicketJson j = Except.ok t)
    (hitems : t.Items ≠ none)
    (hstore : ks.StoreTicket s { t with Status := STATUS_PENDING } = Except.ok (s2, n)) :
    KitchenServer.createTicket ks s (some j)
      = (s2, { status := some 202, body := some (encodeCreateTicketResponse n) }) := by
  have hv : getTicketFromRequestBody (some j) = Except.ok t := by
    have : isTicketValid t = true := by
      cases ht : t.Items with
      | none => exact absurd ht hitems
      | some xs => simp [isTicketValid, ht]
    simp [getTicketFromRequestBody, hdec, this]
  unfold KitchenServer.createTicket
  simp only [hv, hstore]

/-- Witness for C2 (amended): the repository test's body `{"Items":
["burger","fries"]}` posted against the empty stub store is answered 202
with body `{"ID": 0}`, the ID the stub assigned. -/
theorem createTicket_returns_store_id_witness :
    KitchenServer.createTicket stubStore [] (some (JsonValue.obj
        [("Items", JsonValue.arr [JsonValue.str "burger", JsonValue.str "fries"])]))
      = ([{ ID := 0, Status := STATUS_PENDING, Items := some ["burger", "fries"] }],
         { status := some 202, body := some (encodeCreateTicketResponse 0) }) :=
  createTicket_returns_store_id stubStore []
    [{ ID := 0, Status := STATUS_PENDING, Items := some ["burger", "fries"] }] 0 _
    { ID := 0, Status := 0, Items := some ["burger", "fries"] } rfl (by simp) rfl

/-- A JSON value that `encoding/json` accepts into the `int` field ID:
null, or an integral number representable in Go's 64-bit int. The decoder
fails with an UnmarshalTypeError on a non-integral number (inexpressible in
the integer-valued `JsonValue.num`) and on a number outside int64 range, so
only this range is interchangeable in an ID member without affecting the
response. -/
def idLike : JsonValue → Bool
  | JsonValue.null => true
  | JsonValue.num n => decide (-(2 ^ 63) ≤ n ∧ n < 2 ^ 63)
  | _ => false

/-- Two JSON object bodies that differ only in well-typed ID members:
members keyed (case-insensitively) `ID` holding null or an integral number
within Go's 64-bit int range may differ in value, appear, or disappear;
every other member coincides, in order. -/
inductive DifferOnlyInID : List (String × JsonValue) → List (String × JsonValue) → Prop where
  | nil : DifferOnlyInID [] []
  | same (n : String) (v : JsonValue) (fs1 fs2 : List (String × JsonValue)) :
      DifferOnlyInID fs1 fs2 → DifferOnlyInID ((n, v) :: fs1) ((n, v) :: fs2)
  | skipL (n : String) (v : JsonValue) (fs1 fs2 : List (String × JsonValue)) :
      classifyField n = FieldName.fID → idLike v = true →
      DifferOnlyInID fs1 fs2 → DifferOnlyInID ((n, v) :: fs1) fs2
  | skipR (n : String) (v : JsonValue) (fs1 fs2 : List (String × JsonValue)) :
      classifyField n = FieldName.fID → idLike v = true →
      DifferOnlyInID fs1 fs2 → DifferOnlyInID fs1 ((n, v) :: fs2)

/-- Agreement of two decode outcomes on everything the create path consumes:
both fail, or both succeed with equal Status and equal Items. -/
def sameOutcome : Except String Ticket → Except String Ticket → Prop
  | Except.ok t1, Except.ok t2 => t1.Status = t2.Status ∧ t1.Items = t2.Items
  | Except.error _, Except.error _ => True
  | _, _ => False

/-- A well-typed ID member always applies successfully and touches only the
ID field. -/
theorem applyField_id (n : String) (v : JsonValue) (t : Ticket)
    (hn : classifyField n = FieldName.fID) (hv : idLike v = true) :
    ∃ t2, applyField t n v = Except.ok t2 ∧ t2.Status = t.Status ∧ t2.Items = t.Items := by
  cases v with
  | null => exact ⟨t, by simp [applyField, hn], rfl, rfl⟩
  | num k => exact ⟨{ t with ID := k }, by simp [applyField, hn], rfl, rfl⟩
  | bool b => simp [idLike] at hv
  | str s => simp [idLike] at hv
  | arr es => simp [idLike] at hv
  | obj fs => simp [idLike] at hv

/-- Applying the same member to two tickets that agree outside ID yields
outcomes that agree outside ID: failure depends only on the member itself. -/
theorem applyField_congr (n : String) (v : JsonValue) (t1 t2 : Ticket)
    (hs : t1.Status = t2.Status) (hi : t1.Items = t2.Items) :
    sameOutcome (applyField t1 n v) (applyField t2 n v) := by
  unfold applyField
  cases hc : classifyField n <;> cases v <;>
    first
      | exact ⟨hs, hi⟩
      | exact ⟨rfl, hi⟩
      | exact trivial
      | (rename_i es
         cases hd : decodeStringList es <;> simp only [hd] <;>
           first
             | exact trivial
             | exact ⟨hs, rfl⟩)

/-- Decoding two bodies that differ only in well-typed ID members from
tickets that agree outside ID yields outcomes that agree outside ID. -/
theorem applyFields_differ {fs1 fs2 : List (String × JsonValue)}
    (h : DifferOnlyInID fs1 fs2) :
    ∀ t1 t2 : Ticket, t1.Status = t2.Status → t1.Items = t2.Items →
    sameOutcome (applyFields t1 fs1) (applyFields t2 fs2) := by
  induction h with
  | nil => intro t1 t2 hs hi; exact ⟨hs, hi⟩
  | same n v fs1 fs2 hd ih =>
    intro t1 t2 hs hi
    have hc := applyField_congr n v t1 t2 hs hi
    simp only [applyFields]
    cases h1 : applyField t1 n v with
    | error e1 =>
      cases h2 : applyField t2 n v with
      | error e2 => exact trivial
      | ok u2 => rw [h1, h2] at hc; exact hc.elim
    | ok u1 =>
      cases h2 : applyField t2 n v with
      | error e2 => rw [h1, h2] at hc; exact hc.elim
      | ok u2 =>
        rw [h1, h2] at hc
        exact ih u1 u2 hc.1 hc.2
  | skipL n v fs1 fs2 hn hv hd ih =>
    intro t1 t2 hs hi
    obtain ⟨u1, he, hus, hui⟩ := applyField_id n v t1 hn hv
    simp only [applyFields, he]
    exact ih u1 t2 (hus.trans hs) (hui.trans hi)
  | skipR n v fs1 fs2 hn hv hd ih =>
    intro t1 t2 hs hi
    obtain ⟨u2, he, hus, hui⟩ := applyField_id n v t2 hn hv
    simp only [applyFields, he]
    exact ih t1 u2 (hs.trans hus.symm) (hi.trans hui.symm)

/-- Claim C5 as amended: a well-typed client-supplied id is discarded and
has no effect — two POST bodies that differ only in ID members holding null
or an integral number within Go's 64-bit int range produce the same
response and the same stub-store state. (An ID member of any other JSON
type, a non-integral number, or a number outside int64 range makes the
strict decode fail with 400, so such members do affect the response.) -/
theorem createTicket_ignores_client_id (s : List Ticket)
    (fs1 fs2 : List (String × JsonValue)) (h : DifferOnlyInID fs1 fs2) :
    KitchenServer.createTicket stubStore s (some (JsonValue.obj fs1))
      = KitchenServer.createTicket stubStore s (some (JsonValue.obj fs2)) := by
  have hc := applyFields_differ h zeroTicket zeroTicket rfl rfl
  cases h1 : applyFields zeroTicket fs1 with
  | error e1 =>
    cases h2 : applyFields zeroTicket fs2 with
    | error e2 =>
      rw [createTicket_err stubStore s _ ("unable to unmarshal ticket JSON, " ++ e1)
            (by simp [getTicketFromRequestBody, decodeTicketJson, h1]),
          createTicket_err stubStore s _ ("unable to unmarshal ticket JSON, " ++ e2)
            (by simp [getTicketFromRequestBody, decodeTicketJson, h2])]
    | ok u2 => rw [h1, h2] at hc; exact hc.elim
  | ok u1 =>
    cases h2 : applyFields zeroTicket fs2 with
    | error e2 => rw [h1, h2] at hc; exact hc.elim
    | ok u2 =>
      rw [h1, h2] at hc
      obtain ⟨hs, hi⟩ := hc
      have hval : isTicketValid u2 = isTicketValid u1 := by
        unfold isTicketValid; rw [hi]
      cases hv1 : isTicketValid u1 with
      | false =>
        have hv2 : isTicketValid u2 = false := by rw [hval]; exact hv1
        rw [createTicket_err stubStore s _
              "some fields of ticket JSON are empty, cannot persist"
              (by simp [getTicketFromRequestBody, decodeTicketJson, h1, hv1]),
            createTicket_err stubStore s _
              "some fields of ticket JSON are empty, cannot persist"
              (by simp [getTicketFromRequestBody, decodeTicketJson, h2, hv2])]
      | true =>
        have hv2 : isTicketValid u2 = true := by rw [hval]; exact hv1
        have g1 : getTicketFromRequestBody (some (JsonValue.obj fs1)) = Except.ok u1 := by
          simp [getTicketFromRequestBody, decodeTicketJson, h1, hv1]
        have g2 : getTicketFromRequestBody (some (JsonValue.obj fs2)) = Except.ok u2 := by
          simp [getTicketFromRequestBody, decodeTicketJson, h2, hv2]
        unfold KitchenServer.createTicket
        simp only [g1, g2, stubStore]
        simp [hi]

/-- Counterexample to C5 as stated: two POST bodies that differ only in
their ID member — one holds the string "x", the other the number 0 — get
different responses, 400 versus 202: an ill-typed ID value does affect the
outcome, because strict decoding fails on it. -/
theorem createTicket_c5_counterexample :
    (KitchenServer.createTicket stubStore []
        (some (JsonValue.obj
          [("ID", JsonValue.str "x"), ("Items", JsonValue.arr [])]))).2.status
      = some 400
    ∧ (KitchenServer.createTicket stubStore []
        (some (JsonValue.obj
          [("ID", JsonValue.num 0), ("Items", JsonValue.arr [])]))).2.status
      = some 202
    ∧ (some 400 : Option Nat) ≠ some 202 :=
  ⟨rfl, rfl, by decide⟩

/-- Witness for C5 (amended): adding an in-range numeric ID member to a
body changes neither the response nor the resulting store state. -/
theorem createTicket_ignores_client_id_witness :
    KitchenServer.createTicket stubStore []
        (some (JsonValue.obj [("ID", JsonValue.num 7),
          ("Items", JsonValue.arr [JsonValue.str "burger"])]))
      = KitchenServer.createTicket stubStore []
        (some (JsonValue.obj [("Items", JsonValue.arr [JsonValue.str "burger"])])) :=
  createTicket_ignores_client_id [] _ _
    (DifferOnlyInID.skipL "ID" (JsonValue.num 7) _ _ rfl rfl
      (DifferOnlyInID.same "Items" (JsonValue.arr [JsonValue.str "burger"]) _ _
        DifferOnlyInID.nil))

/-- Claim C8 (code bug): `InMemoryKitchenStore.StoreTicket` of the main file
assigns 123 to every stored ticket — two successive store operations return
the same ID, so assigned IDs are neither strictly increasing nor distinct.
The stub store does keep the invariant: see `stubStore_ids_nodup` and
`stubStore_assigns_increasing`. -/
theorem inMemory_store_ids_not_monotonic :
    inMemoryStore.StoreTicket () { ID := 0, Status := 0, Items := some ["burger"] }
        = Except.ok ((), 123)
    ∧ inMemoryStore.StoreTicket () { ID := 0, Status := 0, Items := some ["pizza"] }
        = Except.ok ((), 123)
    ∧ ¬ (123 : Int) < 123 :=
  ⟨rfl, rfl, by decide⟩

/-- Iterating the stub store's StoreTicket over a list of tickets. -/
def storeManyStub : List Ticket → List Ticket → List Ticket
  | s, [] => s
  | s, t :: ts => storeManyStub (s ++ [{ t with ID := (s.length : Int) }]) ts

/-- In every stub-store state reachable by store operations from a state
whose IDs are 0, ..., n−1 in order — the empty store included — the IDs
remain 0, ..., m−1 in order. -/
theorem storeManyStub_ids : ∀ ts s : List Ticket,
    s.map Ticket.ID = (List.range s.length).map (fun k : Nat => (k : Int)) →
    (storeManyStub s ts).map Ticket.ID
      = (List.range (storeManyStub s ts).length).map (fun k : Nat => (k : Int)) := by
  intro ts
  induction ts with
  | nil => intro s hs; exact hs
  | cons t ts ih =>
    intro s hs
    apply ih
    simp [List.range_succ, hs]

/-- All ticket IDs in a stub-store state reachable from the empty store are
pairwise distinct. -/
theorem stubStore_ids_nodup (ts : List Ticket) :
    ((storeManyStub [] ts).map Ticket.ID).Nodup := by
  rw [storeManyStub_ids ts [] rfl]
  refine List.Nodup.map ?_ (List.nodup_range _)
  intro a b hab
  simpa using hab

/-- Two successive stub-store StoreTicket calls assign strictly increasing
IDs. -/
theorem stubStore_assigns_increasing (s : List Ticket) (t1 t2 : Ticket) :
    ∃ s2 i1 s3 i2, stubStore.StoreTicket s t1 = Except.ok (s2, i1)
      ∧ stubStore.StoreTicket s2 t2 = Except.ok (s3, i2) ∧ i1 < i2 := by
  refine ⟨_, _, _, _, rfl, rfl, ?_⟩
  simp [stubStore]
